import Mathlib

/-!
Shallow embedding of the `vrchat-avatar-switcher` repository
(`avatar_switch/avatar_switcher.py`, `avatar_switch/vrchat_api.py`,
`avatar_switch/errors.py`) and proofs about the claims of its
specification.

HTTP transport, console input and the on-disk cookie store are external
collaborators of the code; they appear here as explicit parameters
(response oracles, input streams, a store value).  Everything the Python
functions themselves do — matching, branching on status codes, logging,
raising — is translated branch by branch from the source.
-/

deriving instance DecidableEq for Except

namespace AvatarSwitch

/-! ## HTTP responses (the `requests` response surface used by the code) -/

/-- The part of a `requests.Response` the code inspects: its status code. -/
structure Resp where
  status : Nat
deriving DecidableEq, Repr

/-- `requests.Response.ok`: true iff the status code is below 400. -/
def Resp.ok (r : Resp) : Bool := r.status < 400

/-- `requests.Response.raise_for_status()`: raises an `HTTPError` carrying the
status code iff `400 <= status < 600`; otherwise it is a no-op. -/
def raiseForStatus (s : Nat) : Option Nat :=
  if 400 ≤ s ∧ s < 600 then some s else none

/-! ## Python substring membership

`needle in hay` on Python strings is the contiguous-substring test; the empty
string is a substring of every string (including the empty one). -/

/-- Python `sub in hay` on lists of characters. -/
def hasSubstring : List Char → List Char → Bool
  | sub, [] => sub.isEmpty
  | sub, c :: rest => sub.isPrefixOf (c :: rest) || hasSubstring sub rest

/-- Python `sub in hay` on strings. -/
def pyIn (sub hay : String) : Bool := hasSubstring sub.data hay.data

/-- Python `s.lower()`, character by character (the names involved are ASCII). -/
def lowerChars (s : String) : List Char := s.data.map Char.toLower

/-- The match test of `switch_avatar_by_name` (avatar_switcher.py line 47):
`target_avatar_name.lower() in avatar_name.lower()`. -/
def matchesTarget (target name : String) : Bool :=
  hasSubstring (lowerChars target) (lowerChars name)

/-! ## `AvatarSwitcher.switch_avatar_by_name` (avatar_switcher.py lines 38-72)

The avatar catalog is a Python dict `avatars_map : id -> name`; dicts iterate
in insertion order, so it is embedded as an association list.  The select
request `self.api.switch_avatar(avatar_id)` is an oracle
`api : String → Except Unit Resp`; `Except.error ()` stands for a
transport-level failure (`urllib.error.HTTPError`) raised by the request
itself.  The run records the returned value or raised error, the list of
select requests issued (avatar ids, in order), and the log messages. -/

/-- Errors `switch_avatar_by_name` can terminate with. -/
inductive SwitchErr where
  /-- `AvatarNotFoundError` (errors.py), raised at lines 46 and 72. -/
  | avatarNotFound
  /-- `AuthenticationRequiredError` (errors.py), raised at line 60. -/
  | authenticationRequired
  /-- The error `raise_for_status()` raises at line 71, carrying the status. -/
  | httpStatusErr (status : Nat)
  /-- A transport-level failure raised by the select request itself. -/
  | transportErr
deriving DecidableEq, Repr

/-- Log messages emitted by `switch_avatar_by_name`. -/
inductive SwitchLog where
  /-- line 50: info, avatar was switched. -/
  | infoSwitched (name target : String)
  /-- line 53: error, no avatar was found with this id/name. -/
  | errorNoAvatar (id name : String)
  /-- lines 56-59: error before raising `AuthenticationRequiredError`. -/
  | errorReauth (name id : String)
  /-- lines 66-69: error, unexpected status code. -/
  | errorUnexpected (status : Nat) (name id : String)
deriving DecidableEq, Repr

/-- Observable outcome of one `switch_avatar_by_name` call. -/
structure SwitchRun where
  /-- `Except.ok ()` is a normal `return None`; `Except.error e` a raised error. -/
  result : Except SwitchErr Unit
  /-- Avatar ids of the select requests issued, in order. -/
  requests : List String
  logs : List SwitchLog
deriving DecidableEq, Repr

/-- The `for avatar_id, avatar_name in avatars_map.items()` loop of
`switch_avatar_by_name` (lines 47-71), falling through to the final
`raise AvatarNotFoundError` at line 72. -/
def switchLoop (api : String → Except Unit Resp) (target : String) :
    List (String × String) → SwitchRun
  | [] => ⟨.error .avatarNotFound, [], []⟩
  | (avatarId, avatarName) :: rest =>
    if matchesTarget target avatarName then
      match api avatarId with
      | .error () => ⟨.error .transportErr, [avatarId], []⟩
      | .ok resp =>
        if resp.ok then
          ⟨.ok (), [avatarId], [.infoSwitched avatarName target]⟩
        else if resp.status == 404 || resp.status == 403 then
          ⟨.ok (), [avatarId], [.errorNoAvatar avatarId avatarName]⟩
        else if resp.status == 400 then
          ⟨.error .authenticationRequired, [avatarId], [.errorReauth avatarName avatarId]⟩
        else
          match raiseForStatus resp.status with
          | some s =>
            ⟨.error (.httpStatusErr s), [avatarId], [.errorUnexpected resp.status avatarName avatarId]⟩
          | none =>
            let r := switchLoop api target rest
            ⟨r.result, avatarId :: r.requests, .errorUnexpected resp.status avatarName avatarId :: r.logs⟩
    else switchLoop api target rest

/-- `AvatarSwitcher.switch_avatar_by_name` (lines 38-72).  The target is an
`Option String`: `none` is Python `None` (line 45 raises immediately).
NOTE: the `retry(...)` expression at lines 32-37 is a bare statement, not a
`@retry(...)` decorator, so it is never applied to this function; the
function body runs exactly once per call. -/
def switch_avatar_by_name (api : String → Except Unit Resp)
    (avatars_map : List (String × String)) (target : Option String) : SwitchRun :=
  match target with
  | none => ⟨.error .avatarNotFound, [], []⟩
  | some t => switchLoop api t avatars_map

/-- The first catalog entry whose name contains the target, in iteration
order (what the loop hits first). -/
def firstMatch (target : String) (avatars_map : List (String × String)) :
    Option (String × String) :=
  avatars_map.find? (fun p => matchesTarget target p.2)

/-! ## Cookies and their persistence (vrchat_api.py lines 154-164)

A cookie in the session jar carries a name, a value and an optional
expiration timestamp (`expires` is `None` for cookies created without one).
The on-disk JSON file is a flat string-to-string mapping; `json.dumps` /
`json.loads` of such a mapping round-trip exactly, so the store is embedded
as the mapping itself. -/

/-- A cookie as held in `self.session.cookies`. -/
structure Cookie where
  name : String
  value : String
  expires : Option Int
deriving DecidableEq, Repr

/-- Python dict assignment `d[k] = v`: overwrite in place if the key exists,
else append. -/
def dictInsert (d : List (String × String)) (k v : String) : List (String × String) :=
  if d.any (fun p => p.1 == k) then
    d.map (fun p => if p.1 == k then (k, v) else p)
  else d ++ [(k, v)]

/-- `requests.utils.dict_from_cookiejar`: builds a dict mapping each cookie's
name to its value, in jar order.  No other attribute of the cookie — in
particular not its expiration — is put into the dict. -/
def dict_from_cookiejar (jar : List Cookie) : List (String × String) :=
  jar.foldl (fun d c => dictInsert d c.name c.value) []

/-- `requests.cookies.cookiejar_from_dict`: creates one cookie per
name/value pair with default attributes; the default expiration is `None`. -/
def cookiejar_from_dict (d : List (String × String)) : List Cookie :=
  d.map (fun p => { name := p.1, value := p.2, expires := none })

/-- `_save_cookies` (lines 154-157) followed by `_load_cookies`
(lines 159-164) on a fresh client: the session jar is serialized through the
store and read back into the new session. -/
def save_then_load (jar : List Cookie) : List Cookie :=
  cookiejar_from_dict (dict_from_cookiejar jar)

/-! ## `VRChatAPI.basic_authentication` (vrchat_api.py lines 37-84)

The environment bundles the external collaborators the function consumes:
the cookie store contents (`none` when `cookies.json` does not exist), the
status of the `get_current_user` validation request, the status of the
`login` request, and the session's cookie jar right after the login response
(the cookies the server set).  `login`/`password` arrive from `os.getenv`,
so an absent variable and an empty string are both falsy; both are embedded
as `""`.  Console `input()` calls are recorded; the source discards their
return values (lines 59 and 61 do not bind them). -/

/-- External collaborators of `basic_authentication`. -/
structure AuthEnv where
  /-- Contents of `cookies.json`, if the file exists. -/
  store : Option (List (String × String))
  /-- Status of the `get_current_user` request validating loaded cookies. -/
  currentUserStatus : Nat
  /-- Status of the `login` request. -/
  loginStatus : Nat
  /-- The session's cookie jar after the login response. -/
  postLoginCookies : List Cookie

/-- Errors `basic_authentication` can terminate with. -/
inductive AuthErr where
  /-- `ValueError` raised at line 64: credentials missing. -/
  | valueError
  /-- The error `raise_for_status()` raises (lines 80, 83), with the status. -/
  | httpStatusErr (status : Nat)
  /-- `IndexError` from `[...][0]` on an empty list at line 168. -/
  | indexError
  /-- `TypeError` from `int(None)` at line 169. -/
  | typeError
deriving DecidableEq, Repr

/-- Normal returns of `basic_authentication`. -/
inductive AuthOutcome where
  /-- line 54: loaded cookies validated, no login performed. -/
  | cookiesValid
  /-- lines 72-75 completed: login ok, cookies saved, expiration logged. -/
  | loginSuccess
  /-- the final `else` branch ran but `raise_for_status` did not raise
  (status outside 400-599), so the function fell through to `return None`. -/
  | fellThrough
deriving DecidableEq, Repr

/-- Log messages of `basic_authentication` (and of
`log_authentication_cookie_expiration_date`). -/
inductive AuthLog where
  /-- line 47: checking for cookies to load. -/
  | checkingCookies
  /-- line 50: cookies found, validating. -/
  | cookiesFound
  /-- line 53: cookies are valid. -/
  | cookiesOk
  /-- line 56: cookies have expired, new login required. -/
  | cookiesExpired
  /-- line 70: making login. -/
  | makingLogin
  /-- line 74: login success, cookies saved. -/
  | loginSaved
  /-- line 170: authentication cookie expiration time. -/
  | cookieExpiresAt (t : Int)
  /-- lines 77-79: authentication failed, likely invalid credentials. -/
  | invalidCredentials
  /-- line 82: something went wrong during authentication. -/
  | backendFailure
deriving DecidableEq, Repr

/-- The two console prompts of lines 59 and 61. -/
inductive Prompt where
  | loginPrompt
  | passwordPrompt
deriving DecidableEq, Repr

/-- Observable outcome of one `basic_authentication` call. -/
structure AuthRun where
  result : Except AuthErr AuthOutcome
  logs : List AuthLog
  /-- Which `input()` prompts were shown (their results are discarded). -/
  prompted : List Prompt
  /-- Contents of the cookie store after the call. -/
  storeAfter : Option (List (String × String))
deriving DecidableEq, Repr

/-- `log_authentication_cookie_expiration_date` (lines 166-170): filters the
jar for cookies named `"auth"` and indexes `[0]`; an empty filter raises
`IndexError`, an `expires` of `None` makes `int(...)` raise `TypeError`. -/
def log_authentication_cookie_expiration_date (jar : List Cookie) :
    Except AuthErr (List AuthLog) :=
  match jar.filter (fun c => c.name == "auth") with
  | [] => .error .indexError
  | c :: _ =>
    match c.expires with
    | none => .error .typeError
    | some t => .ok [.cookieExpiresAt t]

/-- Lines 58-84 of `basic_authentication`: prompting, the missing-credentials
check, the login request and the classification of its response. -/
def loginPhase (env : AuthEnv) (login password : String) (logs : List AuthLog) : AuthRun :=
  let prompted :=
    (if login = "" then [Prompt.loginPrompt] else [])
      ++ (if password = "" then [Prompt.passwordPrompt] else [])
  if login = "" || password = "" then
    ⟨.error .valueError, logs, prompted, env.store⟩
  else
    let logs := logs ++ [AuthLog.makingLogin]
    if env.loginStatus < 400 then
      let newStore := some (dict_from_cookiejar env.postLoginCookies)
      let logs := logs ++ [AuthLog.loginSaved]
      match log_authentication_cookie_expiration_date env.postLoginCookies with
      | .error e => ⟨.error e, logs, prompted, newStore⟩
      | .ok more => ⟨.ok .loginSuccess, logs ++ more, prompted, newStore⟩
    else if env.loginStatus == 403 then
      match raiseForStatus env.loginStatus with
      | some s => ⟨.error (.httpStatusErr s), logs ++ [AuthLog.invalidCredentials], prompted, env.store⟩
      | none => ⟨.ok .fellThrough, logs ++ [AuthLog.invalidCredentials], prompted, env.store⟩
    else
      match raiseForStatus env.loginStatus with
      | some s => ⟨.error (.httpStatusErr s), logs ++ [AuthLog.backendFailure], prompted, env.store⟩
      | none => ⟨.ok .fellThrough, logs ++ [AuthLog.backendFailure], prompted, env.store⟩

/-- `VRChatAPI.basic_authentication` (lines 37-84): load any stored cookies,
validate them with `get_current_user` when present, and fall back to the
login phase otherwise. -/
def basic_authentication (env : AuthEnv) (login password : String) : AuthRun :=
  let cookies0 : List Cookie := (env.store.map cookiejar_from_dict).getD []
  let logs0 := [AuthLog.checkingCookies]
  if cookies0.isEmpty then
    loginPhase env login password logs0
  else if env.currentUserStatus < 400 then
    ⟨.ok .cookiesValid, logs0 ++ [AuthLog.cookiesFound, AuthLog.cookiesOk], [], env.store⟩
  else
    loginPhase env login password (logs0 ++ [AuthLog.cookiesFound, AuthLog.cookiesExpired])

/-! ## `VRChatAPI.mfa_authentication` (vrchat_api.py lines 86-118)

`get_user_response.json().get("requiresTwoFactorAuth")` is a list of method
names; an absent key and an empty list are both falsy, so both are embedded
as `[]`.  The verification endpoints are oracles from the submitted code to
a response.  Console input is a stream of lines; the `while not mfa_code`
loop keeps prompting while the code is falsy (absent or empty).  On a
bad-request verify response the function recursively calls itself with no
arguments (line 113); the embedding carries fuel for that self-call, and an
exhausted stream or fuel yields `none` (the Python code would loop or
recurse without bound there). -/

/-- External collaborators of `mfa_authentication`. -/
structure MfaEnv where
  /-- The `requiresTwoFactorAuth` list of the current-user response
  (`[]` when absent or empty). -/
  userMethods : List String
  /-- Status of `verify_totp` for a submitted code. -/
  totpStatus : String → Nat
  /-- Status of `verify_emailotp` for a submitted code. -/
  emailStatus : String → Nat

/-- Errors `mfa_authentication` can terminate with. -/
inductive MfaErr where
  /-- `NotImplementedError` raised at line 106: methods not supported. -/
  | notImplementedErr
  /-- The error `raise_for_status()` raises at line 116, with the status. -/
  | httpStatusErr (status : Nat)
deriving DecidableEq, Repr

/-- Which verification endpoint a run submitted the code to. -/
inductive MfaPath where
  | totp
  | emailotp
deriving DecidableEq, Repr

/-- Normal returns of `mfa_authentication`. -/
inductive MfaResult where
  /-- line 118: no two-step challenge outstanding. -/
  | notNeeded
  /-- lines 108-110: verify succeeded on the given path, cookies saved. -/
  | verified (path : MfaPath)
  /-- the final `else` branch ran but `raise_for_status` did not raise,
  so the function fell through without saving cookies. -/
  | fellThrough
deriving DecidableEq, Repr

/-- The `while not mfa_code: mfa_code = input(...)` loop (lines 95-100):
returns the first truthy code together with the rest of the input stream,
or `none` if the stream runs out while the code is still falsy. -/
def promptLoop : List String → Option (String × List String)
  | [] => none
  | p :: ps => if p = "" then promptLoop ps else some (p, ps)

/-- Entry to the prompt loop with the code passed as argument (`None` is
embedded as `none`; an empty string is falsy too). -/
def obtainCode (code : Option String) (inputs : List String) :
    Option (String × List String) :=
  match code with
  | some c => if c = "" then promptLoop inputs else some (c, inputs)
  | none => promptLoop inputs

/-- `VRChatAPI.mfa_authentication` (lines 86-118).  `none` means the Python
code would not terminate within the given fuel/input stream.  Lines 101-106
pick the verification endpoint — note line 103 tests `"emailotp" in
mfa_code`, the submitted code string.  Lines 108-116 classify the verify
response; a bad-request response recursively re-enters
`mfa_authentication()` with no arguments (line 113). -/
def mfa_authentication (env : MfaEnv) :
    Nat → Option String → List String → Option (Except MfaErr MfaResult)
  | 0, _, _ => none
  | fuel + 1, mfaCode, inputs =>
    if env.userMethods = [] then some (.ok .notNeeded)
    else
      match obtainCode mfaCode inputs with
      | none => none
      | some (code, rest) =>
        let chosen : Option (Nat × MfaPath) :=
          if env.userMethods.contains "totp" then some (env.totpStatus code, .totp)
          else if pyIn "emailotp" code then some (env.emailStatus code, .emailotp)
          else none
        match chosen with
        | none => some (.error .notImplementedErr)
        | some (status, path) =>
          if status < 400 then some (.ok (.verified path))
          else if status == 400 then mfa_authentication env fuel none rest
          else
            match raiseForStatus status with
            | some s => some (.error (.httpStatusErr s))
            | none => some (.ok .fellThrough)

end AvatarSwitch

namespace AvatarSwitch

/-! ## Concrete oracles used in witnesses and counterexamples -/

/-- A select-request oracle whose every response is a 200. -/
def apiAlwaysOk : String → Except Unit Resp := fun _ => .ok ⟨200⟩

/-- A select-request oracle whose every response has the given status. -/
def apiStatus (s : Nat) : String → Except Unit Resp := fun _ => .ok ⟨s⟩

/-- A select-request oracle whose every request fails at the transport level. -/
def apiTransportFail : String → Except Unit Resp := fun _ => .error ()

/-! ## Helper lemmas -/

/-- The empty string is a substring of every string. -/
theorem hasSubstring_nil_left (l : List Char) : hasSubstring [] l = true := by
  cases l with
  | nil => rfl
  | cons c rest => simp [hasSubstring]

/-- The empty target matches every avatar name. -/
theorem matchesTarget_empty (name : String) : matchesTarget "" name = true := by
  simp [matchesTarget, lowerChars, hasSubstring_nil_left]

/-- If the first matching catalog entry is `(aid, aname)` and the select
request for `aid` returns an ok response, the loop returns normally having
issued exactly that one request. -/
theorem switchLoop_find_ok (api : String → Except Unit Resp) (t : String)
    (cat : List (String × String)) (aid aname : String) (resp : Resp)
    (hfind : cat.find? (fun p => matchesTarget t p.2) = some (aid, aname))
    (hapi : api aid = .ok resp) (hok : resp.ok = true) :
    switchLoop api t cat = ⟨.ok (), [aid], [.infoSwitched aname t]⟩ := by
  induction cat with
  | nil => simp [List.find?] at hfind
  | cons p rest ih =>
    obtain ⟨i, n⟩ := p
    by_cases hm : matchesTarget t n = true
    · simp only [List.find?, hm] at hfind
      obtain ⟨rfl, rfl⟩ : i = aid ∧ n = aname := by
        simpa using hfind
      simp [switchLoop, hm, hapi, hok]
    · have hmf : matchesTarget t n = false := by simpa using hm
      simp only [List.find?, hmf] at hfind
      simpa [switchLoop, hmf] using ih hfind

/-- If the first matching catalog entry is `(aid, aname)` and the select
request for `aid` returns a 404 or a 403, the loop also returns normally
having issued exactly that one request, logging an error instead. -/
theorem switchLoop_find_notfound (api : String → Except Unit Resp) (t : String)
    (cat : List (String × String)) (aid aname : String) (resp : Resp)
    (hfind : cat.find? (fun p => matchesTarget t p.2) = some (aid, aname))
    (hapi : api aid = .ok resp) (hst : resp.status = 404 ∨ resp.status = 403) :
    switchLoop api t cat = ⟨.ok (), [aid], [.errorNoAvatar aid aname]⟩ := by
  have hok : resp.ok = false := by
    rcases hst with h | h <;> simp [Resp.ok, h]
  have hst' : (resp.status == 404 || resp.status == 403) = true := by
    rcases hst with h | h <;> simp [h]
  induction cat with
  | nil => simp [List.find?] at hfind
  | cons p rest ih =>
    obtain ⟨i, n⟩ := p
    by_cases hm : matchesTarget t n = true
    · simp only [List.find?, hm] at hfind
      obtain ⟨rfl, rfl⟩ : i = aid ∧ n = aname := by
        simpa using hfind
      simp [switchLoop, hm, hapi, hok, hst']
    · have hmf : matchesTarget t n = false := by simpa using hm
      simp only [List.find?, hmf] at hfind
      simpa [switchLoop, hmf] using ih hfind

end AvatarSwitch

namespace AvatarSwitch

/-! ## Claims -/

/-- C1: for every non-empty target and every catalog containing an entry
whose display name contains the target case-insensitively,
`switch_avatar_by_name` issues the select request for the first such entry
in catalog iteration order (and for no other entry), and on a successful
select response returns normally (Success). -/
theorem switch_selects_first_match (api : String → Except Unit Resp)
    (cat : List (String × String)) (t aid aname : String) (resp : Resp)
    (hne : t ≠ "")
    (hfind : firstMatch t cat = some (aid, aname))
    (hapi : api aid = .ok resp) (hok : resp.ok = true) :
    switch_avatar_by_name api cat (some t) = ⟨.ok (), [aid], [.infoSwitched aname t]⟩ := by
  simpa [switch_avatar_by_name] using
    switchLoop_find_ok api t cat aid aname resp hfind hapi hok

/-- C1 witness: catalog `[("a1", "Blue Fox"), ("a2", "Red Fox")]` with target
`"fox"`: the first match `a1` is selected. -/
theorem switch_selects_first_match_witness :
    ("fox" : String) ≠ "" ∧
    firstMatch "fox" [("a1", "Blue Fox"), ("a2", "Red Fox")] = some ("a1", "Blue Fox") ∧
    apiAlwaysOk "a1" = .ok ⟨200⟩ ∧ Resp.ok ⟨200⟩ = true ∧
    switch_avatar_by_name apiAlwaysOk [("a1", "Blue Fox"), ("a2", "Red Fox")] (some "fox")
      = ⟨.ok (), ["a1"], [.infoSwitched "Blue Fox" "fox"]⟩ :=
  ⟨by decide, by decide, rfl, by decide,
    switch_selects_first_match apiAlwaysOk [("a1", "Blue Fox"), ("a2", "Red Fox")]
      "fox" "a1" "Blue Fox" ⟨200⟩ (by decide) (by decide) rfl (by decide)⟩

/-- C2 counterexample: with catalog `[("a1", "Blue Fox")]` and the empty
string as target, `switch_avatar_by_name` issues a select request (the empty
string is a substring of every name) and does not raise
`AvatarNotFoundError` — contrary to the claim that an empty target always
fails with `AvatarNotFoundError` without issuing any request. -/
theorem switch_empty_target_counterexample :
    (switch_avatar_by_name apiAlwaysOk [("a1", "Blue Fox")] (some "")).requests = ["a1"] ∧
    (switch_avatar_by_name apiAlwaysOk [("a1", "Blue Fox")] (some "")).result
      ≠ .error .avatarNotFound := by decide

/-- C2 amended: a `None` target always fails with `AvatarNotFoundError`
without issuing any request; the empty-string target does so only on an
empty catalog — on a non-empty catalog it matches the first entry and the
first select request issued is for that entry's id. -/
theorem switch_none_or_empty_amended (api : String → Except Unit Resp)
    (cat : List (String × String)) :
    switch_avatar_by_name api cat none = ⟨.error .avatarNotFound, [], []⟩ ∧
    switch_avatar_by_name api [] (some "") = ⟨.error .avatarNotFound, [], []⟩ ∧
    ∀ aid aname rest,
      (switch_avatar_by_name api ((aid, aname) :: rest) (some "")).requests.head?
        = some aid := by
  refine ⟨rfl, rfl, ?_⟩
  intro aid aname rest
  have hm := matchesTarget_empty aname
  simp only [switch_avatar_by_name, switchLoop, hm, if_true]
  cases hapi : api aid with
  | error u => cases u; rfl
  | ok resp =>
    by_cases h1 : resp.ok = true
    · simp [h1]
    · simp only [h1, if_false, Bool.false_eq_true]
      by_cases h2 : (resp.status == 404 || resp.status == 403) = true
      · simp [h2]
      · simp only [h2, if_false, Bool.false_eq_true]
        by_cases h3 : (resp.status == 400) = true
        · simp [h3]
        · simp only [h3, if_false, Bool.false_eq_true]
          cases hrs : raiseForStatus resp.status with
          | some s => rfl
          | none => rfl

/-- C3: the `retry(...)` expression at avatar_switcher.py lines 32-37 is a
bare statement, not an applied `@retry` decorator, so `switch_avatar_by_name`
is not retried: a single transport-level failure on the select request
propagates immediately, after exactly one request and with no delay —
contrary to the claimed 10-attempt policy. -/
theorem switch_no_retry_on_transport_failure :
    switch_avatar_by_name apiTransportFail [("a1", "Blue Fox")] (some "fox")
      = ⟨.error .transportErr, ["a1"], []⟩ := by decide

/-- C4: when the select response is 400 (bad request) the code raises
`AuthenticationRequiredError`, but when it is 401 (unauthorized) the code
falls into the generic `raise_for_status` branch and raises a plain HTTP
status error — contrary to the claim that an unauthorized status also
yields `AuthenticationRequiredError` (the code's own messages say "401"
while the check is `codes.bad_request`). -/
theorem switch_unauthorized_not_classified :
    (switch_avatar_by_name (apiStatus 401) [("a1", "Blue Fox")] (some "fox")).result
      = .error (.httpStatusErr 401) ∧
    (switch_avatar_by_name (apiStatus 400) [("a1", "Blue Fox")] (some "fox")).result
      = .error .authenticationRequired := by decide

end AvatarSwitch

namespace AvatarSwitch

/-- Inserting a key that is not present in the dict appends it. -/
theorem dictInsert_notMem (d : List (String × String)) (k v : String)
    (h : ∀ p ∈ d, p.1 ≠ k) : dictInsert d k v = d ++ [(k, v)] := by
  unfold dictInsert
  rw [if_neg]
  simp only [List.any_eq_true, beq_iff_eq, not_exists, not_and]
  intro p hp
  exact h p hp

/-- Folding `dictInsert` over a jar whose cookie names are fresh for the
accumulator and mutually distinct appends the name/value pairs in order. -/
theorem foldl_dictInsert (jar : List Cookie) (acc : List (String × String))
    (hdisj : ∀ c ∈ jar, ∀ p ∈ acc, p.1 ≠ c.name)
    (hnodup : (jar.map Cookie.name).Nodup) :
    jar.foldl (fun d c => dictInsert d c.name c.value) acc
      = acc ++ jar.map (fun c => (c.name, c.value)) := by
  induction jar generalizing acc with
  | nil => simp
  | cons c rest ih =>
    have hstep : dictInsert acc c.name c.value = acc ++ [(c.name, c.value)] :=
      dictInsert_notMem acc c.name c.value (fun p hp => hdisj c (by simp) p hp)
    have hnodup' := hnodup
    rw [List.map_cons, List.nodup_cons] at hnodup'
    obtain ⟨hhead, htail⟩ := hnodup'
    have hdisj' : ∀ d ∈ rest, ∀ p ∈ acc ++ [(c.name, c.value)], p.1 ≠ d.name := by
      intro d hd p hp
      rcases List.mem_append.1 hp with hin | hin
      · exact hdisj d (by simp [hd]) p hin
      · simp only [List.mem_singleton] at hin
        subst hin
        intro hcontra
        apply hhead
        have hcd : c.name = d.name := hcontra
        rw [hcd]
        exact List.mem_map_of_mem Cookie.name hd
    calc (c :: rest).foldl (fun d c => dictInsert d c.name c.value) acc
        = rest.foldl (fun d c => dictInsert d c.name c.value) (acc ++ [(c.name, c.value)]) := by
          simp [hstep]
      _ = (acc ++ [(c.name, c.value)]) ++ rest.map (fun c => (c.name, c.value)) :=
          ih (acc ++ [(c.name, c.value)]) hdisj' htail
      _ = acc ++ (c :: rest).map (fun c => (c.name, c.value)) := by simp

/-- C5 counterexample: a jar holding the authentication cookie with value
`"abc"` and expiration `1700000000` reloads as the same name and value but
with no expiration — the expiration timestamp is lost, contrary to the
claim that the round-trip preserves it. -/
theorem cookie_roundtrip_counterexample :
    save_then_load [⟨"auth", "abc", some 1700000000⟩] = [⟨"auth", "abc", none⟩] ∧
    (⟨"auth", "abc", none⟩ : Cookie) ≠ ⟨"auth", "abc", some 1700000000⟩ := by decide

/-- C5 amended: for a jar with pairwise-distinct cookie names, saving and
reloading preserves every cookie's name and value (in order) but erases
every expiration timestamp, because the persisted format maps name to value
only. -/
theorem cookie_roundtrip_amended (jar : List Cookie)
    (hnodup : (jar.map Cookie.name).Nodup) :
    save_then_load jar = jar.map (fun c => Cookie.mk c.name c.value none) := by
  unfold save_then_load dict_from_cookiejar
  rw [foldl_dictInsert jar [] (by simp) hnodup]
  simp [cookiejar_from_dict]

/-- C5 amended witness: the single-cookie jar from the counterexample. -/
theorem cookie_roundtrip_amended_witness :
    (([⟨"auth", "abc", some 1700000000⟩] : List Cookie).map Cookie.name).Nodup ∧
    save_then_load [⟨"auth", "abc", some 1700000000⟩]
      = ([⟨"auth", "abc", some 1700000000⟩] : List Cookie).map (fun c => Cookie.mk c.name c.value none) :=
  ⟨by decide, cookie_roundtrip_amended [⟨"auth", "abc", some 1700000000⟩] (by decide)⟩

/-- A two-step environment advertising only the TOTP method. -/
def mfaEnvTotp : MfaEnv := ⟨["totp"], fun _ => 200, fun _ => 200⟩

/-- A two-step environment advertising only the email-code method; both
verification endpoints would accept the code. -/
def mfaEnvEmail : MfaEnv := ⟨["emailotp"], fun _ => 200, fun _ => 200⟩

/-- A two-step environment advertising only an unrecognized method. -/
def mfaEnvUnknown : MfaEnv := ⟨["sms"], fun _ => 200, fun _ => 200⟩

/-- C6: with TOTP advertised the TOTP path is used, and with only an
unknown method advertised the unsupported-method error is raised — but with
only the email-code method advertised and the code `"123456"` supplied, the
code also raises the unsupported-method error instead of using the email
path, because line 103 tests `"emailotp" in mfa_code` (the submitted code
string) rather than membership in the advertised method list. -/
theorem mfa_email_method_ignored :
    mfa_authentication mfaEnvTotp 1 (some "123456") [] = some (.ok (.verified .totp)) ∧
    mfa_authentication mfaEnvUnknown 1 (some "123456") [] = some (.error .notImplementedErr) ∧
    mfa_authentication mfaEnvEmail 1 (some "123456") [] = some (.error .notImplementedErr) := by
  decide

end AvatarSwitch

namespace AvatarSwitch

/-- C7: when the login phase is reached (no stored cookies) with non-empty
credentials and the login response is a non-success status, the call fails
with the HTTP status error of that status, and the classification is the
invalid-credentials branch exactly when the status is 403 (forbidden), the
distinct backend-failure branch for every other non-success status. -/
theorem basic_auth_forbidden_classification (env : AuthEnv) (login password : String)
    (hl : login ≠ "") (hp : password ≠ "") (hstore : env.store = none)
    (hbad : 400 ≤ env.loginStatus) (hlt : env.loginStatus < 600) :
    (basic_authentication env login password).result
      = .error (.httpStatusErr env.loginStatus) ∧
    (AuthLog.invalidCredentials ∈ (basic_authentication env login password).logs
      ↔ env.loginStatus = 403) ∧
    (AuthLog.backendFailure ∈ (basic_authentication env login password).logs
      ↔ env.loginStatus ≠ 403) := by
  have hnotok : ¬ env.loginStatus < 400 := by omega
  by_cases h403 : env.loginStatus = 403
  · simp [basic_authentication, loginPhase, raiseForStatus, hstore, hl, hp,
      hnotok, h403]
  · have hbeq : (env.loginStatus == 403) = false := by
      simpa using h403
    simp [basic_authentication, loginPhase, raiseForStatus, hstore, hl, hp,
      hnotok, hbeq, h403, hbad, hlt]

/-- C7 witness: a fresh client, credentials `"u"`/`"p"`, login status 403:
the run fails with the status error and logs the invalid-credentials
classification, not the backend one. -/
theorem basic_auth_forbidden_classification_witness :
    ("u" : String) ≠ "" ∧ ("p" : String) ≠ "" ∧
    (AuthEnv.mk none 200 403 []).store = none ∧ 400 ≤ 403 ∧ 403 < 600 ∧
    ((basic_authentication ⟨none, 200, 403, []⟩ "u" "p").result
        = .error (.httpStatusErr 403) ∧
      (AuthLog.invalidCredentials ∈ (basic_authentication ⟨none, 200, 403, []⟩ "u" "p").logs
        ↔ (403 : Nat) = 403) ∧
      (AuthLog.backendFailure ∈ (basic_authentication ⟨none, 200, 403, []⟩ "u" "p").logs
        ↔ (403 : Nat) ≠ 403)) :=
  ⟨by decide, by decide, rfl, by decide, by decide,
    basic_auth_forbidden_classification ⟨none, 200, 403, []⟩ "u" "p"
      (by decide) (by decide) rfl (by decide) (by decide)⟩

/-- C8: with no stored cookies and an absent login, the login prompt is
shown, but the value the user types is discarded (lines 59 and 61 do not
bind the `input()` results), so the call raises the missing-credentials
`ValueError` whatever was typed — contrary to the claim that the prompted
value is used for the login request and that failure occurs only when the
value is still empty after prompting. -/
theorem basic_auth_prompted_value_unused (env : AuthEnv) (password : String)
    (hp : password ≠ "") (hstore : env.store = none) :
    (basic_authentication env "" password).result = .error .valueError ∧
    (basic_authentication env "" password).prompted = [Prompt.loginPrompt] := by
  simp [basic_authentication, loginPhase, hstore, hp]

/-- C8 witness: password `"p"` provided, login absent. -/
theorem basic_auth_prompted_value_unused_witness :
    ("p" : String) ≠ "" ∧ (AuthEnv.mk none 200 200 []).store = none ∧
    ((basic_authentication ⟨none, 200, 200, []⟩ "" "p").result = .error .valueError ∧
      (basic_authentication ⟨none, 200, 200, []⟩ "" "p").prompted = [Prompt.loginPrompt]) :=
  ⟨by decide, rfl,
    basic_auth_prompted_value_unused ⟨none, 200, 200, []⟩ "p" (by decide) rfl⟩

/-- C9: at the first matching catalog entry, a successful select response
and a not-found (404) or forbidden (403) select response produce the same
return value — a normal `return None` — so the caller cannot tell the two
outcomes apart from the result; the two runs differ only in their log
message. -/
theorem switch_success_notfound_same_return (api1 api2 : String → Except Unit Resp)
    (cat : List (String × String)) (t aid aname : String) (r1 r2 : Resp)
    (hfind : firstMatch t cat = some (aid, aname))
    (h1 : api1 aid = .ok r1) (hok : r1.ok = true)
    (h2 : api2 aid = .ok r2) (hst : r2.status = 404 ∨ r2.status = 403) :
    (switch_avatar_by_name api1 cat (some t)).result = .ok () ∧
    (switch_avatar_by_name api2 cat (some t)).result = .ok () ∧
    (switch_avatar_by_name api1 cat (some t)).result
      = (switch_avatar_by_name api2 cat (some t)).result ∧
    (switch_avatar_by_name api1 cat (some t)).logs
      ≠ (switch_avatar_by_name api2 cat (some t)).logs := by
  have e1 : switch_avatar_by_name api1 cat (some t)
      = ⟨.ok (), [aid], [.infoSwitched aname t]⟩ := by
    simpa [switch_avatar_by_name] using
      switchLoop_find_ok api1 t cat aid aname r1 hfind h1 hok
  have e2 : switch_avatar_by_name api2 cat (some t)
      = ⟨.ok (), [aid], [.errorNoAvatar aid aname]⟩ := by
    simpa [switch_avatar_by_name] using
      switchLoop_find_notfound api2 t cat aid aname r2 hfind h2 hst
  refine ⟨by rw [e1], by rw [e2], by rw [e1, e2], by rw [e1, e2]; simp⟩

/-- C9 witness: catalog `[("a1", "Blue Fox")]`, target `"fox"`, one oracle
answering 200 and one answering 404. -/
theorem switch_success_notfound_same_return_witness :
    firstMatch "fox" [("a1", "Blue Fox")] = some ("a1", "Blue Fox") ∧
    apiAlwaysOk "a1" = .ok ⟨200⟩ ∧ Resp.ok ⟨200⟩ = true ∧
    apiStatus 404 "a1" = .ok ⟨404⟩ ∧ ((404 : Nat) = 404 ∨ (404 : Nat) = 403) ∧
    ((switch_avatar_by_name apiAlwaysOk [("a1", "Blue Fox")] (some "fox")).result = .ok () ∧
      (switch_avatar_by_name (apiStatus 404) [("a1", "Blue Fox")] (some "fox")).result = .ok () ∧
      (switch_avatar_by_name apiAlwaysOk [("a1", "Blue Fox")] (some "fox")).result
        = (switch_avatar_by_name (apiStatus 404) [("a1", "Blue Fox")] (some "fox")).result ∧
      (switch_avatar_by_name apiAlwaysOk [("a1", "Blue Fox")] (some "fox")).logs
        ≠ (switch_avatar_by_name (apiStatus 404) [("a1", "Blue Fox")] (some "fox")).logs) :=
  ⟨by decide, rfl, by decide, rfl, by decide,
    switch_success_notfound_same_return apiAlwaysOk (apiStatus 404) [("a1", "Blue Fox")]
      "fox" "a1" "Blue Fox" ⟨200⟩ ⟨404⟩ (by decide) rfl (by decide) rfl (by decide)⟩

/-- C10: when the login response is successful but the session's cookie jar
afterwards contains no cookie named "auth",
`log_authentication_cookie_expiration_date` indexes an empty list and raises
`IndexError`, and `basic_authentication` terminates with that unclassified
`IndexError`. -/
theorem basic_auth_missing_auth_cookie_index_error (env : AuthEnv)
    (login password : String)
    (hl : login ≠ "") (hp : password ≠ "") (hstore : env.store = none)
    (hok : env.loginStatus < 400)
    (hno : env.postLoginCookies.filter (fun c => c.name == "auth") = []) :
    log_authentication_cookie_expiration_date env.postLoginCookies
      = .error .indexError ∧
    (basic_authentication env login password).result = .error .indexError := by
  have hlog : log_authentication_cookie_expiration_date env.postLoginCookies
      = .error .indexError := by
    simp [log_authentication_cookie_expiration_date, hno]
  refine ⟨hlog, ?_⟩
  simp [basic_authentication, loginPhase, hstore, hl, hp, hok, hlog]

/-- C10 witness: a successful login whose response sets only a cookie named
"session". -/
theorem basic_auth_missing_auth_cookie_index_error_witness :
    ("u" : String) ≠ "" ∧ ("p" : String) ≠ "" ∧
    (AuthEnv.mk none 500 200 [⟨"session", "x", none⟩]).store = none ∧
    (AuthEnv.mk none 500 200 [⟨"session", "x", none⟩]).loginStatus < 400 ∧
    (AuthEnv.mk none 500 200 [⟨"session", "x", none⟩]).postLoginCookies.filter
      (fun c => c.name == "auth") = [] ∧
    (log_authentication_cookie_expiration_date
        (AuthEnv.mk none 500 200 [⟨"session", "x", none⟩]).postLoginCookies
      = .error .indexError ∧
    (basic_authentication ⟨none, 500, 200, [⟨"session", "x", none⟩]⟩ "u" "p").result
      = .error .indexError) :=
  ⟨by decide, by decide, rfl, by decide, by decide,
    basic_auth_missing_auth_cookie_index_error ⟨none, 500, 200, [⟨"session", "x", none⟩]⟩
      "u" "p" (by decide) (by decide) rfl (by decide) (by decide)⟩

end AvatarSwitch
